import Mathlib

/-!
Verification of the ParkHub mockup-screenshot generator
(`scripts/generate_screenshots.py`).

The script draws nine documentation screens onto in-memory canvases with
PIL and writes them as PNG files.  We embed it shallowly: every drawing
call becomes a `DrawCmd` value, and each screen composer becomes a pure
function from the process-wide font registry to the list of drawing
commands it issues, in source order.  Pixel rasterisation and file I/O
are outside the embedding; all claims under scrutiny are about the
command streams (texts, colors, geometry) that determine the pixels.
-/

namespace ParkHub

/-- An RGB color, optionally with an alpha component, mirroring the
3- and 4-tuples used by the script. -/
structure Color where
  r : Nat
  g : Nat
  b : Nat
  a : Option Nat := none
deriving DecidableEq, Repr

/-- Canvas width `W = 800` (line 7). -/
def W : Nat := 800

/-- Canvas height `H = 500` (line 7). -/
def H : Nat := 500

def BG : Color := ⟨15, 23, 42, none⟩
def BLUE : Color := ⟨59, 130, 246, none⟩
def DARK_BLUE : Color := ⟨29, 78, 216, none⟩
def WHITE : Color := ⟨255, 255, 255, none⟩
def GRAY : Color := ⟨148, 163, 184, none⟩
def LIGHT_GRAY : Color := ⟨203, 213, 225, none⟩
def CARD_BG : Color := ⟨30, 41, 59, none⟩
def CARD_BORDER : Color := ⟨51, 65, 85, none⟩
def GREEN : Color := ⟨34, 197, 94, none⟩
def RED : Color := ⟨239, 68, 68, none⟩
def YELLOW : Color := ⟨250, 204, 21, none⟩
def PURPLE : Color := ⟨168, 85, 247, none⟩

/-- A handle to a rasterisable font: the truetype path it was resolved
from (or `"default"` for `ImageFont.load_default()`) and its point size. -/
structure FontHandle where
  path : String
  size : Nat
deriving DecidableEq, Repr

/-- `ImageFont.load_default()`. -/
def defaultFont : FontHandle := ⟨"default", 0⟩

/-- The six module-level font handles (lines 25-30). -/
structure FontRegistry where
  font_lg : FontHandle
  font_md : FontHandle
  font_sm : FontHandle
  font_xs : FontHandle
  font_bold : FontHandle
  font_title : FontHandle
deriving DecidableEq, Repr

def dejavuBoldPath : String := "/usr/share/fonts/truetype/dejavu/DejaVuSans-Bold.ttf"
def dejavuPath : String := "/usr/share/fonts/truetype/dejavu/DejaVuSans.ttf"

/-- Module-level font resolution (lines 24-33).  `tt` models
`ImageFont.truetype`: `none` means the call raised.  If all six
preferred lookups succeed their results are used; otherwise the
`except:` branch assigns `ImageFont.load_default()` to `font_lg` and
aliases every other role to it. -/
def resolve_fonts (tt : String → Nat → Option FontHandle) : FontRegistry :=
  match tt dejavuBoldPath 28, tt dejavuPath 18, tt dejavuPath 14,
        tt dejavuPath 11, tt dejavuBoldPath 18, tt dejavuBoldPath 22 with
  | some lg, some md, some sm, some xs, some bold, some ti =>
      ⟨lg, md, sm, xs, bold, ti⟩
  | _, _, _, _, _, _ =>
      ⟨defaultFont, defaultFont, defaultFont, defaultFont, defaultFont, defaultFont⟩

/-- Whether all six preferred truetype lookups succeed (the `try:`
block runs to completion). -/
def preferred_resolved (tt : String → Nat → Option FontHandle) : Bool :=
  (tt dejavuBoldPath 28).isSome && (tt dejavuPath 18).isSome &&
  (tt dejavuPath 14).isSome && (tt dejavuPath 11).isSome &&
  (tt dejavuBoldPath 18).isSome && (tt dejavuBoldPath 22).isSome

/-- The six semantic font roles of the registry. -/
inductive FontRole where
  | lg | md | sm | xs | bold | title
deriving DecidableEq, Repr

/-- Look a role up in the registry. -/
def font_for (F : FontRegistry) : FontRole → FontHandle
  | .lg => F.font_lg
  | .md => F.font_md
  | .sm => F.font_sm
  | .xs => F.font_xs
  | .bold => F.font_bold
  | .title => F.font_title

/-- The registry obtained when every truetype lookup fails. -/
def fallback_fonts : FontRegistry := resolve_fonts (fun _ _ => none)

/-- One drawing call issued against a canvas, in the order the script
issues them: rounded rectangle, plain rectangle, ellipse, line, text. -/
inductive DrawCmd where
  | rrect (x0 y0 x1 y1 : Nat) (fill : Color) (radius : Nat) (outline : Option Color)
  | rect (x0 y0 x1 y1 : Nat) (fill : Color)
  | ellipse (x0 y0 x1 y1 : Nat) (fill : Color)
  | line (x0 y0 x1 y1 : Nat) (fill : Color)
  | text (x y : Nat) (s : String) (fill : Color) (font : FontHandle)
deriving DecidableEq, Repr

/-- `rounded_rect` helper (lines 36-38); radius and outline are passed
explicitly at every call site (the Python defaults are radius 12,
outline None). -/
def rounded_rect (x0 y0 x1 y1 : Nat) (fill : Color) (radius : Nat)
    (outline : Option Color) : DrawCmd :=
  DrawCmd.rrect x0 y0 x1 y1 fill radius outline

/-- Python's `f"{n:02d}"` for the 1- and 2-digit slot numbers used here. -/
def pad2 (n : Nat) : String :=
  if n < 10 then "0" ++ toString n else toString n

/-- Fixed navbar item labels (line 47). -/
def navbar_items : List String := ["Dashboard", "Buchungen", "Profil", "Admin"]

/-- `draw_navbar` (lines 41-52): bar background, logo, title, then the
four navigation labels at y 18, each `BLUE` when it equals the active
item and `GRAY` otherwise. -/
def draw_navbar (F : FontRegistry) (title : String) (active : Option String) :
    List DrawCmd :=
  [rounded_rect 0 0 W 56 CARD_BG 12 none,
   rounded_rect 16 10 52 46 BLUE 8 none,
   DrawCmd.text 22 14 "PH" WHITE F.font_bold,
   DrawCmd.text 62 16 title WHITE F.font_bold] ++
  navbar_items.enum.map (fun p =>
    DrawCmd.text (300 + 100 * p.1) 18 p.2
      (if active = some p.2 then BLUE else GRAY) F.font_sm)

/-- Fixed sidebar entries with their vertical offsets (lines 58-59). -/
def sidebar_items : List (String × Nat) :=
  [("Dashboard", 80), ("Buchungen", 115), ("Fahrzeuge", 150),
   ("Homeoffice", 185), ("Profil", 220), ("Admin", 270)]

/-- `draw_sidebar` (lines 55-65): panel background, then each entry;
the active entry gets a filled accent highlight behind white text,
every other entry is plain `GRAY` text. -/
def draw_sidebar (F : FontRegistry) (active : Option String) : List DrawCmd :=
  rounded_rect 0 56 200 H ⟨20, 30, 48, none⟩ 12 none ::
  sidebar_items.flatMap (fun p =>
    if active = some p.1 then
      [rounded_rect 8 (p.2 - 4) 192 (p.2 + 26) BLUE 8 none,
       DrawCmd.text 20 p.2 p.1 WHITE F.font_sm]
    else
      [DrawCmd.text 20 p.2 p.1 GRAY F.font_sm])

/-- The ten language cards of the welcome screen (lines 73-76). -/
def welcome_langs : List (String × String) :=
  [("Deutsch", "German"), ("English", "English"), ("Espanol", "Spanish"),
   ("Francais", "French"), ("Portugues", "Portuguese"),
   ("Turkce", "Turkish"), ("Hindi", "Hindi"), ("Japanisch", "Japanese"),
   ("Chinesisch", "Chinese"), ("Arabisch", "Arabic")]

/-- `cols, cw, ch = 5, 130, 70` (line 77). -/
def welcome_cols : Nat := 5
def welcome_cw : Nat := 130
def welcome_ch : Nat := 70

/-- `sx = (W - cols * cw - (cols-1)*12) // 2` (line 78). -/
def welcome_sx : Nat :=
  (W - welcome_cols * welcome_cw - (welcome_cols - 1) * 12) / 2

/-- One language card of the welcome grid (lines 79-85). -/
def welcome_card (F : FontRegistry) (i : Nat) (lang : String × String) :
    List DrawCmd :=
  let r := i / welcome_cols
  let c := i % welcome_cols
  let x := welcome_sx + c * (welcome_cw + 12)
  let y := 160 + r * (welcome_ch + 12)
  [rounded_rect x y (x + welcome_cw) (y + welcome_ch) CARD_BG 10 (some CARD_BORDER),
   DrawCmd.text (x + 12) (y + 14) lang.1 WHITE F.font_sm,
   DrawCmd.text (x + 12) (y + 36) lang.2 GRAY F.font_xs]

/-- `create_welcome` (lines 68-88), minus the final file write. -/
def create_welcome (F : FontRegistry) : List DrawCmd :=
  [DrawCmd.text (W / 2 - 100) 60 "Willkommen" BLUE F.font_lg,
   DrawCmd.text (W / 2 - 140) 110 "Sprache wahlen / Select your language" GRAY F.font_sm] ++
  welcome_langs.enum.flatMap (fun p => welcome_card F p.1 p.2) ++
  [DrawCmd.text (W / 2 - 80) 390 "Barrierefreiheit" GRAY F.font_xs,
   DrawCmd.text (W / 2 - 100) 460 "Open Source  |  MIT License  |  GitHub"
     ⟨71, 85, 105, none⟩ F.font_xs]

/-- `create_login` (lines 91-119), minus the final file write. -/
def create_login (F : FontRegistry) : List DrawCmd :=
  [DrawCmd.rect 0 0 380 H BLUE,
   DrawCmd.text 40 60 "PH" WHITE F.font_lg,
   DrawCmd.text 90 68 "ParkHub" WHITE F.font_bold,
   DrawCmd.text 40 140 "Intelligentes" WHITE F.font_lg,
   DrawCmd.text 40 175 "Parkplatz-" WHITE F.font_lg,
   DrawCmd.text 40 210 "Management" WHITE F.font_lg,
   DrawCmd.text 40 260 "Einfach. Effizient. Open Source." ⟨200, 220, 255, none⟩ F.font_sm,
   rounded_rect 40 320 170 380 ⟨255, 255, 255, some 30⟩ 12 none,
   DrawCmd.text 60 335 "24/7" WHITE F.font_bold,
   DrawCmd.text 60 358 "Verfugbar" ⟨200, 220, 255, none⟩ F.font_xs,
   rounded_rect 190 320 340 380 ⟨255, 255, 255, some 30⟩ 12 none,
   DrawCmd.text 210 335 "100%" WHITE F.font_bold,
   DrawCmd.text 210 358 "Open Source" ⟨200, 220, 255, none⟩ F.font_xs,
   DrawCmd.text 420 100 "Anmeldung" WHITE F.font_title,
   DrawCmd.text 420 135 "Melden Sie sich an" GRAY F.font_sm,
   DrawCmd.text 420 180 "Benutzername" GRAY F.font_xs,
   rounded_rect 420 200 740 236 CARD_BG 8 (some CARD_BORDER),
   DrawCmd.text 435 210 "admin" LIGHT_GRAY F.font_sm,
   DrawCmd.text 420 260 "Passwort" GRAY F.font_xs,
   rounded_rect 420 280 740 316 CARD_BG 8 (some CARD_BORDER),
   DrawCmd.text 435 290 "••••••••" LIGHT_GRAY F.font_sm,
   rounded_rect 420 340 740 376 BLUE 8 none,
   DrawCmd.text 545 350 "Anmelden" WHITE F.font_bold]

/-- Onboarding step labels (line 129). -/
def onboarding_steps : List String :=
  ["Passwort", "Anwendungsfall", "Organisation", "Fertig"]

/-- Onboarding use-case options (lines 139-141). -/
def onboarding_modes : List (String × String) :=
  [("Unternehmen", "Firmenparkplatze verwalten"),
   ("Wohnanlage", "Mieterparkplatze organisieren"),
   ("Familie", "Familienparkplatze teilen")]

/-- `create_onboarding` (lines 122-152), minus the final file write. -/
def create_onboarding (F : FontRegistry) : List DrawCmd :=
  [DrawCmd.text (W / 2 - 100) 30 "Ersteinrichtung" WHITE F.font_lg,
   rounded_rect 100 80 700 90 CARD_BG 5 none,
   rounded_rect 100 80 400 90 BLUE 5 none] ++
  onboarding_steps.enum.flatMap (fun p =>
    let x := 130 + p.1 * 160
    let color := if p.1 < 2 then BLUE else GRAY
    [DrawCmd.ellipse x 96 (x + 20) 116 color,
     DrawCmd.text (x - 10) 122 p.2 color F.font_xs]) ++
  [rounded_rect 100 160 700 440 CARD_BG 12 (some CARD_BORDER),
   DrawCmd.text 130 180 "Anwendungsfall wahlen" WHITE F.font_title,
   DrawCmd.text 130 215 "Wie mochten Sie ParkHub nutzen?" GRAY F.font_sm] ++
  onboarding_modes.enum.flatMap (fun p =>
    let y := 260 + p.1 * 55
    let is_sel := p.1 == 0
    let bg := if is_sel then (⟨59, 130, 246, some 30⟩ : Color) else CARD_BG
    let ol := if is_sel then BLUE else CARD_BORDER
    [rounded_rect 130 y 670 (y + 45) (if !is_sel then bg else ⟨30, 50, 80, none⟩) 8 (some ol),
     DrawCmd.text 155 (y + 6) p.2.1 (if is_sel then WHITE else LIGHT_GRAY) F.font_bold,
     DrawCmd.text 155 (y + 26) p.2.2 GRAY F.font_xs]) ++
  [rounded_rect 550 450 700 480 BLUE 8 none,
   DrawCmd.text 595 455 "Weiter" WHITE F.font_bold]

/-- Dashboard stat cards: label, value, value color (lines 161-162). -/
def dash_stats : List (String × String × Color) :=
  [("Stellplatze", "24", GREEN), ("Belegt", "18", RED),
   ("Frei", "6", BLUE), ("Buchungen", "142", PURPLE)]

/-- Dashboard recent bookings: holder, slot code, status (lines 183-184). -/
def dash_bookings : List (String × String × String) :=
  [("Max M.", "P03", "Aktiv"), ("Anna S.", "P12", "Aktiv"),
   ("Tom K.", "P07", "Beendet"), ("Lisa R.", "P21", "Geplant")]

/-- One cell of the dashboard 4x6 occupancy grid (lines 171-179):
`occupied = (r * 6 + c) < 18` decides fill, outline and label color. -/
def dash_grid_cell (F : FontRegistry) (r c : Nat) : List DrawCmd :=
  let x := 240 + c * 50
  let y := 205 + r * 55
  let occupied := decide (r * 6 + c < 18)
  let color : Color := if occupied then ⟨239, 68, 68, some 100⟩ else ⟨34, 197, 94, some 100⟩
  [rounded_rect x y (x + 40) (y + 42) (if occupied then color else ⟨30, 60, 40, none⟩) 6
     (some (if occupied then RED else GREEN)),
   DrawCmd.text (x + 10) (y + 14) ("P" ++ pad2 (r * 6 + c + 1))
     (if occupied then WHITE else GREEN) F.font_xs]

/-- `create_dashboard` (lines 155-191), minus the final file write. -/
def create_dashboard (F : FontRegistry) : List DrawCmd :=
  draw_navbar F "ParkHub" (some "Dashboard") ++
  draw_sidebar F (some "Dashboard") ++
  dash_stats.enum.flatMap (fun p =>
    let x := 220 + p.1 * 145
    [rounded_rect x 72 (x + 132) 142 CARD_BG 10 (some CARD_BORDER),
     DrawCmd.text (x + 12) 82 p.2.1 GRAY F.font_xs,
     DrawCmd.text (x + 12) 102 p.2.2.1 p.2.2.2 F.font_lg]) ++
  [rounded_rect 220 158 560 440 CARD_BG 10 (some CARD_BORDER),
   DrawCmd.text 236 168 "Parkplatzbelegung" WHITE F.font_bold] ++
  (List.range 4).flatMap (fun r => (List.range 6).flatMap (fun c => dash_grid_cell F r c)) ++
  [rounded_rect 575 158 785 440 CARD_BG 10 (some CARD_BORDER),
   DrawCmd.text 591 168 "Letzte Buchungen" WHITE F.font_bold] ++
  dash_bookings.enum.flatMap (fun p =>
    let y := 200 + p.1 * 55
    let sc := if p.2.2.2 = "Aktiv" then GREEN
              else if p.2.2.2 = "Beendet" then GRAY else BLUE
    [DrawCmd.text 591 y p.2.1 WHITE F.font_sm,
     DrawCmd.text 591 (y + 20) p.2.2.1 GRAY F.font_xs,
     DrawCmd.text 710 (y + 5) p.2.2.2 sc F.font_xs])

/-- The literal index list of green ("frei"-styled) booking cells
(line 215). -/
def booking_green_list : List Nat := [2, 5, 9, 14, 18, 20]

/-- The fill / border / label-color triple of a booking cell
(lines 215-226): green-list membership first, then the selected index 7,
then the default red styling. -/
def booking_style (idx : Nat) : Color × Color × Color :=
  if idx ∈ booking_green_list then (⟨20, 50, 30, none⟩, GREEN, GREEN)
  else if idx = 7 then (⟨30, 50, 80, none⟩, BLUE, BLUE)
  else (⟨50, 30, 30, none⟩, RED, RED)

/-- One cell of the booking 3x8 slot grid (lines 210-228). -/
def booking_cell (F : FontRegistry) (r c : Nat) : List DrawCmd :=
  let x := 240 + c * 65
  let y := 240 + r * 60
  let idx := r * 8 + c
  let s := booking_style idx
  [rounded_rect x y (x + 55) (y + 48) s.1 6 (some s.2.1),
   DrawCmd.text (x + 12) (y + 16) ("A" ++ pad2 (idx + 1)) s.2.2 F.font_sm]

/-- `create_booking` (lines 194-232), minus the final file write. -/
def create_booking (F : FontRegistry) : List DrawCmd :=
  draw_navbar F "ParkHub" (some "Buchungen") ++
  draw_sidebar F (some "Buchungen") ++
  [DrawCmd.text 220 72 "Stellplatz buchen" WHITE F.font_title,
   DrawCmd.text 220 102 "Wahlen Sie einen freien Stellplatz" GRAY F.font_sm,
   rounded_rect 220 135 500 175 CARD_BG 8 (some CARD_BORDER),
   DrawCmd.text 235 147 "Datum:  08.02.2026" LIGHT_GRAY F.font_sm,
   rounded_rect 515 135 700 175 CARD_BG 8 (some CARD_BORDER),
   DrawCmd.text 530 147 "08:00 - 18:00" LIGHT_GRAY F.font_sm,
   rounded_rect 220 190 785 440 CARD_BG 10 (some CARD_BORDER),
   DrawCmd.text 236 200 "Parkplatz A - Tiefgarage" WHITE F.font_bold] ++
  (List.range 3).flatMap (fun r => (List.range 8).flatMap (fun c => booking_cell F r c)) ++
  [rounded_rect 240 430 500 460 BLUE 8 none,
   DrawCmd.text 260 435 "A08 buchen - Bestatigen" WHITE F.font_sm]

/-- Admin tab labels (line 242). -/
def admin_tabs : List String :=
  ["Benutzer", "Stellplatze", "Berichte", "Branding", "System"]

/-- One row of the admin users table: name, email, role, status. -/
structure AdminUser where
  name : String
  email : String
  role : String
  status : String
deriving DecidableEq, Repr

/-- The five literal user rows (lines 259-263). -/
def admin_users : List AdminUser :=
  [⟨"Max Mustermann", "max@firma.de", "Benutzer", "Aktiv"⟩,
   ⟨"Anna Schmidt", "anna@firma.de", "Admin", "Aktiv"⟩,
   ⟨"Tom Krause", "tom@firma.de", "Benutzer", "Inaktiv"⟩,
   ⟨"Lisa Richter", "lisa@firma.de", "Benutzer", "Aktiv"⟩,
   ⟨"Jan Weber", "jan@firma.de", "Manager", "Aktiv"⟩]

/-- Role-to-color mapping of the users table (line 268). -/
def admin_role_color (role : String) : Color :=
  if role = "Admin" then PURPLE else if role = "Manager" then BLUE else GRAY

/-- Status-to-color mapping of the users table (line 270). -/
def admin_status_color (status : String) : Color :=
  if status = "Aktiv" then GREEN else RED

/-- `create_admin` (lines 235-274), minus the final file write.  A row
separator line in color `(30, 41, 59)` is drawn after row `i` only when
`i < 4` (line 272). -/
def create_admin (F : FontRegistry) : List DrawCmd :=
  draw_navbar F "ParkHub" (some "Admin") ++
  draw_sidebar F (some "Admin") ++
  [DrawCmd.text 220 72 "Administration" WHITE F.font_title] ++
  admin_tabs.enum.flatMap (fun p =>
    let tab := p.2
    let x := 220 + 100 * p.1
    let is_active := tab == "Benutzer"
    (if is_active then [rounded_rect x 108 (x + 90) 134 BLUE 6 none] else []) ++
    [DrawCmd.text (x + 10) 112 tab (if is_active then WHITE else GRAY) F.font_sm]) ++
  [rounded_rect 220 150 785 440 CARD_BG 10 (some CARD_BORDER),
   DrawCmd.text 236 160 "Benutzer (47)" WHITE F.font_bold] ++
  (List.zip ["Name", "E-Mail", "Rolle", "Status"] [240, 380, 540, 660]).map
    (fun p => DrawCmd.text p.2 195 p.1 GRAY F.font_xs) ++
  [DrawCmd.line 236 215 770 215 CARD_BORDER] ++
  admin_users.enum.flatMap (fun p =>
    let y := 225 + p.1 * 38
    [DrawCmd.text 240 y p.2.name WHITE F.font_sm,
     DrawCmd.text 380 y p.2.email GRAY F.font_sm,
     DrawCmd.text 540 y p.2.role (admin_role_color p.2.role) F.font_sm,
     DrawCmd.text 660 y p.2.status (admin_status_color p.2.status) F.font_sm] ++
    (if p.1 < 4 then [DrawCmd.line 236 (y + 30) 770 (y + 30) ⟨30, 41, 59, none⟩] else []))

/-- The ten theme cards: display name and accent color (lines 283-289). -/
def themes : List (String × Color) :=
  [("Default Blue", ⟨59, 130, 246, none⟩), ("Solarized", ⟨181, 137, 0, none⟩),
   ("Dracula", ⟨189, 147, 249, none⟩), ("Nord", ⟨136, 192, 208, none⟩),
   ("Gruvbox", ⟨214, 153, 33, none⟩), ("Catppuccin", ⟨203, 166, 247, none⟩),
   ("Tokyo Night", ⟨122, 162, 247, none⟩), ("One Dark", ⟨97, 175, 239, none⟩),
   ("Rose Pine", ⟨235, 188, 186, none⟩), ("Everforest", ⟨167, 192, 128, none⟩)]

/-- `create_themes` (lines 277-303), minus the final file write.  The
swatch fill divides each accent channel by 4 (line 298); only card 0 is
selected: accent outline and an extra "Aktiv" label (lines 294-302). -/
def create_themes (F : FontRegistry) : List DrawCmd :=
  draw_navbar F "ParkHub" none ++
  [DrawCmd.text (W / 2 - 80) 72 "Farbthemen" WHITE F.font_title,
   DrawCmd.text (W / 2 - 140) 102 "Wahlen Sie Ihr bevorzugtes Erscheinungsbild" GRAY F.font_sm] ++
  themes.enum.flatMap (fun p =>
    let r := p.1 / 5
    let c := p.1 % 5
    let x := 60 + c * 145
    let y := 145 + r * 170
    let is_sel := p.1 == 0
    let ol := if is_sel then BLUE else CARD_BORDER
    [rounded_rect x y (x + 130) (y + 150) CARD_BG 10 (some ol),
     rounded_rect (x + 10) (y + 10) (x + 120) (y + 90)
       ⟨p.2.2.r / 4, p.2.2.g / 4, p.2.2.b / 4, none⟩ 6 none,
     DrawCmd.ellipse (x + 50) (y + 35) (x + 80) (y + 65) p.2.2,
     DrawCmd.text (x + 10) (y + 100) p.2.1 (if is_sel then WHITE else LIGHT_GRAY) F.font_sm] ++
    (if is_sel then [DrawCmd.text (x + 10) (y + 125) "Aktiv" BLUE F.font_xs] else []))

/-- `create_mobile` (lines 306-349), minus the final file write. -/
def create_mobile (F : FontRegistry) : List DrawCmd :=
  let px := 280
  let py := 20
  let pw := 240
  let ph := 460
  [rounded_rect px py (px + pw) (py + ph) ⟨10, 15, 30, none⟩ 24 (some CARD_BORDER),
   DrawCmd.text (px + 15) (py + 10) "9:41" WHITE F.font_xs,
   rounded_rect (px + 8) (py + 28) (px + pw - 8) (py + 68) CARD_BG 10 none,
   rounded_rect (px + 16) (py + 35) (px + 46) (py + 60) BLUE 6 none,
   DrawCmd.text (px + 20) (py + 40) "PH" WHITE F.font_sm,
   DrawCmd.text (px + 54) (py + 42) "ParkHub" WHITE F.font_sm] ++
  ([("6", "Frei"), ("18", "Belegt")] : List (String × String)).enum.flatMap (fun p =>
    let x := px + 20 + p.1 * 110
    [rounded_rect x (py + 78) (x + 95) (py + 128) CARD_BG 8 (some CARD_BORDER),
     DrawCmd.text (x + 10) (py + 84) p.2.1 BLUE F.font_bold,
     DrawCmd.text (x + 10) (py + 106) p.2.2 GRAY F.font_xs]) ++
  [DrawCmd.text (px + 16) (py + 140) "Stellplatze" WHITE F.font_sm] ++
  (List.range 3).flatMap (fun r => (List.range 3).flatMap (fun c =>
    let x := px + 16 + c * 72
    let y := py + 165 + r * 52
    let occ := decide (r * 3 + c < 5)
    [rounded_rect x y (x + 64) (y + 42)
       (if occ then ⟨50, 30, 30, none⟩ else ⟨20, 50, 30, none⟩) 6
       (some (if occ then RED else GREEN)),
     DrawCmd.text (x + 18) (y + 14) ("P" ++ toString (r * 3 + c + 1))
       (if occ then RED else GREEN) F.font_xs])) ++
  [rounded_rect (px + 8) (py + ph - 52) (px + pw - 8) (py + ph - 8) CARD_BG 10 none] ++
  (["Home", "Buchen", "Profil"] : List String).enum.flatMap (fun p =>
    [DrawCmd.text (px + 30 + p.1 * 75) (py + ph - 38) p.2
       (if p.1 == 0 then BLUE else GRAY) F.font_xs]) ++
  [DrawCmd.text 60 100 "PWA-fahig" WHITE F.font_title,
   DrawCmd.text 60 135 "Installierbar auf" GRAY F.font_sm,
   DrawCmd.text 60 158 "jedem Gerat" GRAY F.font_sm,
   DrawCmd.text 560 100 "Responsive" WHITE F.font_title,
   DrawCmd.text 560 135 "Optimiert fur" GRAY F.font_sm,
   DrawCmd.text 560 158 "alle Bildschirme" GRAY F.font_sm]

/-- The accent colors indexed by `[GREEN, RED, BLUE, PURPLE][j]` in the
dark-mode swatch loops (lines 371 and 389). -/
def dark_mode_accents : List Color := [GREEN, RED, BLUE, PURPLE]

/-- `create_dark_mode` (lines 352-392), minus the final file write.
Left (dark) panel lives at x < 400, right (light) panel at x >= 400
(`mid = W // 2 = 400`).  Dark swatches fill each accent channel divided
by 6 (line 372); light swatches fill each accent channel divided by 2
plus 128 (line 390); both outline with the accent itself. -/
def create_dark_mode (F : FontRegistry) : List DrawCmd :=
  let mid := W / 2
  [rounded_rect 30 30 (mid - 15) (H - 30) ⟨15, 23, 42, none⟩ 12 (some CARD_BORDER),
   DrawCmd.text 50 45 "Dark Mode" WHITE F.font_bold,
   rounded_rect 50 80 (mid - 35) 140 CARD_BG 8 (some CARD_BORDER),
   DrawCmd.text 65 90 "Dashboard" WHITE F.font_sm,
   DrawCmd.text 65 112 "18 von 24 belegt" GRAY F.font_xs] ++
  (List.range 3).flatMap (fun i =>
    let y := 155 + i * 50
    [rounded_rect 50 y (mid - 35) (y + 40) CARD_BG 8 (some CARD_BORDER),
     DrawCmd.text 65 (y + 6) ("Buchung #" ++ toString (i + 1)) LIGHT_GRAY F.font_sm,
     DrawCmd.text 65 (y + 24) ("Stellplatz P0" ++ toString (i + 1)) GRAY F.font_xs]) ++
  [rounded_rect 50 320 (mid - 35) 380 CARD_BG 8 (some CARD_BORDER)] ++
  (List.range 4).flatMap (fun j =>
    let x := 60 + j * 80
    let c := dark_mode_accents.getD j GREEN
    [rounded_rect x 330 (x + 65) 370 ⟨c.r / 6, c.g / 6, c.b / 6, none⟩ 6 (some c)]) ++
  [DrawCmd.text 50 400 "Automatische Erkennung" GRAY F.font_xs,
   rounded_rect (mid + 15) 30 (W - 30) (H - 30) ⟨248, 250, 252, none⟩ 12
     (some ⟨229, 231, 235, none⟩),
   DrawCmd.text (mid + 35) 45 "Light Mode" ⟨30, 41, 59, none⟩ F.font_bold,
   rounded_rect (mid + 35) 80 (W - 50) 140 WHITE 8 (some ⟨229, 231, 235, none⟩),
   DrawCmd.text (mid + 50) 90 "Dashboard" ⟨30, 41, 59, none⟩ F.font_sm,
   DrawCmd.text (mid + 50) 112 "18 von 24 belegt" ⟨107, 114, 128, none⟩ F.font_xs] ++
  (List.range 3).flatMap (fun i =>
    let y := 155 + i * 50
    [rounded_rect (mid + 35) y (W - 50) (y + 40) WHITE 8 (some ⟨229, 231, 235, none⟩),
     DrawCmd.text (mid + 50) (y + 6) ("Buchung #" ++ toString (i + 1))
       ⟨30, 41, 59, none⟩ F.font_sm,
     DrawCmd.text (mid + 50) (y + 24) ("Stellplatz P0" ++ toString (i + 1))
       ⟨107, 114, 128, none⟩ F.font_xs]) ++
  [rounded_rect (mid + 35) 320 (W - 50) 380 WHITE 8 (some ⟨229, 231, 235, none⟩)] ++
  (List.range 4).flatMap (fun j =>
    let x := mid + 45 + j * 80
    let c := dark_mode_accents.getD j GREEN
    [rounded_rect x 330 (x + 65) 370
       ⟨c.r / 2 + 128, c.g / 2 + 128, c.b / 2 + 128, none⟩ 6 (some c)]) ++
  [DrawCmd.text (mid + 35) 400 "Systemeinstellung" ⟨107, 114, 128, none⟩ F.font_xs]

/-- The `__main__` driver (lines 395-415): run every composer in order
and pair each command stream with its output filename.  `clock` and
`rng` model ambient wall-clock time and randomness; the script reads
neither, which the definition reflects by ignoring them. -/
def generate_all (tt : String → Nat → Option FontHandle)
    (clock : Nat) (rng : Nat → Nat) : List (String × List DrawCmd) :=
  let F := resolve_fonts tt
  let _ := clock
  let _ := rng
  [("welcome.png", create_welcome F),
   ("login.png", create_login F),
   ("onboarding.png", create_onboarding F),
   ("dashboard.png", create_dashboard F),
   ("booking.png", create_booking F),
   ("admin.png", create_admin F),
   ("themes.png", create_themes F),
   ("mobile.png", create_mobile F),
   ("dark-mode.png", create_dark_mode F)]

/-! ### Observation functions over command streams

Each extracts, from a composer's command stream, the facet of the
rendered image that a claim talks about. -/

/-- The textual content drawn in the dark-mode screen's left (dark)
panel, in draw order: the panel occupies x < 400. -/
def left_panel_texts (cmds : List DrawCmd) : List String :=
  cmds.filterMap (fun c => match c with
    | .text x _ s _ _ => if x < 400 then some s else none
    | _ => none)

/-- The textual content drawn in the dark-mode screen's right (light)
panel, in draw order: the panel occupies x >= 400. -/
def right_panel_texts (cmds : List DrawCmd) : List String :=
  cmds.filterMap (fun c => match c with
    | .text x _ s _ _ => if 400 ≤ x then some s else none
    | _ => none)

/-- Fill colors of the dark panel's four swatches, the radius-6 rounded
rectangles at y0 = 330 with x < 400, in draw order. -/
def dark_swatch_fills (cmds : List DrawCmd) : List Color :=
  cmds.filterMap (fun c => match c with
    | .rrect x y _ _ fill rad _ =>
        if y = 330 ∧ rad = 6 ∧ x < 400 then some fill else none
    | _ => none)

/-- Outline colors of the dark panel's four swatches. -/
def dark_swatch_outlines (cmds : List DrawCmd) : List Color :=
  cmds.filterMap (fun c => match c with
    | .rrect x y _ _ _ rad o =>
        if y = 330 ∧ rad = 6 ∧ x < 400 then o else none
    | _ => none)

/-- Fill colors of the light panel's four swatches (x >= 400). -/
def light_swatch_fills (cmds : List DrawCmd) : List Color :=
  cmds.filterMap (fun c => match c with
    | .rrect x y _ _ fill rad _ =>
        if y = 330 ∧ rad = 6 ∧ 400 ≤ x then some fill else none
    | _ => none)

/-- Outline colors of the light panel's four swatches. -/
def light_swatch_outlines (cmds : List DrawCmd) : List Color :=
  cmds.filterMap (fun c => match c with
    | .rrect x y _ _ _ rad o =>
        if y = 330 ∧ rad = 6 ∧ 400 ≤ x then o else none
    | _ => none)

/-- Blend a channel triple halfway toward white: `c / 2 + 128` per
channel (the light-swatch transform of line 390). -/
def half_to_white (c : Color) : Color :=
  ⟨c.r / 2 + 128, c.g / 2 + 128, c.b / 2 + 128, none⟩

/-- Whether a grid cell's command pair renders the cell in the occupied
visual state: its rounded rectangle is outlined `RED`. -/
def cell_is_occupied (cmds : List DrawCmd) : Bool :=
  match cmds with
  | .rrect _ _ _ _ _ _ (some o) :: _ => o == RED
  | _ => false

/-- Whether a grid cell's command pair renders the cell in the free
visual state: its rounded rectangle is outlined `GREEN`. -/
def cell_is_free (cmds : List DrawCmd) : Bool :=
  match cmds with
  | .rrect _ _ _ _ _ _ (some o) :: _ => o == GREEN
  | _ => false

/-- The 24 dashboard grid cells in row-major order. -/
def dash_grid_cells (F : FontRegistry) : List (List DrawCmd) :=
  (List.range 4).flatMap (fun r => (List.range 6).map (fun c => dash_grid_cell F r c))

/-- How many dashboard cells are rendered occupied. -/
def dash_occupied_count (F : FontRegistry) : Nat :=
  (dash_grid_cells F).countP cell_is_occupied

/-- How many dashboard cells are rendered free. -/
def dash_free_count (F : FontRegistry) : Nat :=
  (dash_grid_cells F).countP cell_is_free

/-- The outline color of a grid cell's rounded rectangle, which is what
visually encodes its state in the booking grid. -/
def cell_outline (cmds : List DrawCmd) : Option Color :=
  match cmds with
  | .rrect _ _ _ _ _ _ o :: _ => o
  | _ => none

/-- Origins (x0, y0) of the welcome screen's language cards: its only
radius-10 rounded rectangles. -/
def welcome_card_origins (cmds : List DrawCmd) : List (Nat × Nat) :=
  cmds.filterMap (fun c => match c with
    | .rrect x y _ _ _ rad _ => if rad = 10 then some (x, y) else none
    | _ => none)

/-- Fill colors of the theme cards' preview swatches: the themes
screen's only radius-6 rounded rectangles, in card order. -/
def theme_swatch_fills (cmds : List DrawCmd) : List Color :=
  cmds.filterMap (fun c => match c with
    | .rrect _ _ _ _ fill rad _ => if rad = 6 then some fill else none
    | _ => none)

/-- Outline colors of the theme cards themselves: the themes screen's
only radius-10 rounded rectangles, in card order. -/
def theme_card_outlines (cmds : List DrawCmd) : List Color :=
  cmds.filterMap (fun c => match c with
    | .rrect _ _ _ _ _ rad o => if rad = 10 then o else none
    | _ => none)

/-- Positions of every "Aktiv" label drawn on a screen. -/
def aktiv_text_positions (cmds : List DrawCmd) : List (Nat × Nat) :=
  cmds.filterMap (fun c => match c with
    | .text x y s _ _ => if s = "Aktiv" then some (x, y) else none
    | _ => none)

/-- The y-coordinates of the admin users-table row separator lines,
drawn in the dedicated separator color `(30, 41, 59)`. -/
def admin_row_separator_ys (cmds : List DrawCmd) : List Nat :=
  cmds.filterMap (fun c => match c with
    | .line _ y _ _ fill =>
        if fill = (⟨30, 41, 59, none⟩ : Color) then some y else none
    | _ => none)

/-- Text colors of the role column (x = 540) of the admin users table,
header row excluded (rows start at y = 225). -/
def admin_role_text_colors (cmds : List DrawCmd) : List Color :=
  cmds.filterMap (fun c => match c with
    | .text x y _ col _ => if x = 540 ∧ 225 ≤ y then some col else none
    | _ => none)

/-- Text colors of the status column (x = 660) of the admin users
table, header row excluded. -/
def admin_status_text_colors (cmds : List DrawCmd) : List Color :=
  cmds.filterMap (fun c => match c with
    | .text x y _ col _ => if x = 660 ∧ 225 ≤ y then some col else none
    | _ => none)

/-- Text colors of the four navbar item labels, which are exactly the
navbar texts drawn at y = 18. -/
def navbar_item_colors (cmds : List DrawCmd) : List Color :=
  cmds.filterMap (fun c => match c with
    | .text _ y _ col _ => if y = 18 then some col else none
    | _ => none)

/-- Text colors of the six sidebar entries, which are exactly the
sidebar texts drawn at x = 20. -/
def sidebar_entry_colors (cmds : List DrawCmd) : List Color :=
  cmds.filterMap (fun c => match c with
    | .text x _ _ col _ => if x = 20 then some col else none
    | _ => none)

/-- How many rounded rectangles a command stream draws. -/
def count_rrects (cmds : List DrawCmd) : Nat :=
  cmds.countP (fun c => match c with
    | .rrect _ _ _ _ _ _ _ => true
    | _ => false)

/-! ### Claims -/

/-- The eight interior content strings both dark-mode panels render. -/
def dark_mode_common_texts : List String :=
  ["Dashboard", "18 von 24 belegt", "Buchung #1", "Stellplatz P01",
   "Buchung #2", "Stellplatz P02", "Buchung #3", "Stellplatz P03"]

/-- Counterexample to claim C1 as stated: the two panels' textual
sequences are not equal string-for-string — the dark panel opens with
"Dark Mode" and closes with "Automatische Erkennung" while the light
panel opens with "Light Mode" and closes with "Systemeinstellung". -/
theorem dark_mode_panel_texts_differ :
    left_panel_texts (create_dark_mode fallback_fonts) ≠
      right_panel_texts (create_dark_mode fallback_fonts) := by
  decide

/-- Claim C1, amended: the dark and light panels of the dark-mode split
render the same eight interior content strings in the same order, but
their first string (the panel heading, "Dark Mode" vs "Light Mode") and
their last string (the caption, "Automatische Erkennung" vs
"Systemeinstellung") differ. -/
theorem dark_mode_panel_texts_agree_except_captions (F : FontRegistry) :
    left_panel_texts (create_dark_mode F) =
      "Dark Mode" :: dark_mode_common_texts ++ ["Automatische Erkennung"] ∧
    right_panel_texts (create_dark_mode F) =
      "Light Mode" :: dark_mode_common_texts ++ ["Systemeinstellung"] ∧
    ("Dark Mode" : String) ≠ "Light Mode" ∧
    ("Automatische Erkennung" : String) ≠ "Systemeinstellung" :=
  ⟨rfl, rfl, by decide, by decide⟩

/-- Counterexample to claim C2 as stated: the light-panel swatch fills
are not the per-channel `c / 2 + 128` image of the dark-panel swatch
fills (the dark fills are the accents divided by 6, so already at
index 0 the transform of the dark fill `(5, 32, 15)` gives
`(130, 144, 135)` while the light fill is `(145, 226, 175)`). -/
theorem dark_mode_swatch_fill_relation_fails :
    light_swatch_fills (create_dark_mode fallback_fonts) ≠
      (dark_swatch_fills (create_dark_mode fallback_fonts)).map half_to_white := by
  decide

/-- Claim C2, amended: each light-panel swatch fill equals, per channel,
`c / 2 + 128` where `c` is the corresponding channel of the swatch's
accent color — the outline color shared by the corresponding dark-panel
swatch — not of the dark-panel swatch's fill color (which is the accent
divided by 6). -/
theorem dark_mode_swatch_fill_from_outline (F : FontRegistry) :
    light_swatch_fills (create_dark_mode F) =
      (dark_swatch_outlines (create_dark_mode F)).map half_to_white ∧
    light_swatch_outlines (create_dark_mode F) =
      dark_swatch_outlines (create_dark_mode F) ∧
    (light_swatch_fills (create_dark_mode F)).length = 4 :=
  ⟨rfl, rfl, rfl⟩

lemma cell_is_occupied_dash (F : FontRegistry) (r c : Nat) :
    cell_is_occupied (dash_grid_cell F r c) = decide (r * 6 + c < 18) := by
  cases h : decide (r * 6 + c < 18) <;>
    simp [dash_grid_cell, cell_is_occupied, rounded_rect, h, GREEN, RED]

lemma cell_is_free_dash (F : FontRegistry) (r c : Nat) :
    cell_is_free (dash_grid_cell F r c) = !decide (r * 6 + c < 18) := by
  cases h : decide (r * 6 + c < 18) <;>
    simp [dash_grid_cell, cell_is_free, rounded_rect, h, GREEN, RED]

/-- What claim C3 asserts of one dashboard grid cell: it is rendered in
the occupied state exactly when its linear index is below 18, and it is
rendered free exactly when it is not rendered occupied (so never in
both of the mutually exclusive states). -/
def dash_cell_ok (F : FontRegistry) (r c : Nat) : Prop :=
  (cell_is_occupied (dash_grid_cell F r c) = true ↔ r * 6 + c < 18) ∧
  cell_is_free (dash_grid_cell F r c) = !cell_is_occupied (dash_grid_cell F r c)

/-- Claim C3: in the dashboard's 4-row, 6-column occupancy grid, the
cell at row `r`, column `c` is rendered occupied iff `r * 6 + c < 18`,
each cell is rendered in exactly one of the two mutually exclusive
states, and exactly 18 of the 24 cells render occupied with the
remaining 6 free. -/
theorem dashboard_grid_occupancy (F : FontRegistry) (r c : Nat)
    (_hr : r < 4) (_hc : c < 6) :
    dash_cell_ok F r c ∧ dash_occupied_count F = 18 ∧ dash_free_count F = 6 := by
  refine ⟨⟨?_, ?_⟩, rfl, rfl⟩
  · rw [cell_is_occupied_dash]; simp
  · rw [cell_is_free_dash, cell_is_occupied_dash]

/-- Concrete instance of `dashboard_grid_occupancy` at the top-left
cell. -/
theorem dashboard_grid_occupancy_witness :
    (0 < 4 ∧ 0 < 6) ∧ dash_cell_ok fallback_fonts 0 0 ∧
      dash_occupied_count fallback_fonts = 18 ∧
      dash_free_count fallback_fonts = 6 :=
  ⟨⟨by decide, by decide⟩,
   dashboard_grid_occupancy fallback_fonts 0 0 (by decide) (by decide)⟩

lemma cell_outline_booking (F : FontRegistry) (r c : Nat) :
    cell_outline (booking_cell F r c) = some (booking_style (r * 8 + c)).2.1 :=
  rfl

/-- What claim C4 asserts of one booking grid cell at linear index
`idx = r * 8 + c`: index 7 (the "selected" list) renders with the
accent `BLUE` border — so selection wins over the default-occupied
`RED` coloring; members of the literal green index list render with the
`GREEN` border; every remaining index renders with the default `RED`
border; and the rendered border is exactly one of those three. -/
def booking_cell_ok (F : FontRegistry) (r c : Nat) : Prop :=
  (r * 8 + c = 7 → cell_outline (booking_cell F r c) = some BLUE) ∧
  (r * 8 + c ∈ booking_green_list → cell_outline (booking_cell F r c) = some GREEN) ∧
  (r * 8 + c ∉ booking_green_list → r * 8 + c ≠ 7 →
    cell_outline (booking_cell F r c) = some RED) ∧
  (cell_outline (booking_cell F r c) = some GREEN ∨
   cell_outline (booking_cell F r c) = some BLUE ∨
   cell_outline (booking_cell F r c) = some RED)

/-- Claim C4: in the booking composer's 3-row, 8-column slot grid every
cell is rendered in exactly one state, decided by the literal index
lists with the documented priorities; the three state colors are
pairwise distinct, so no cell is rendered in more than one state. -/
theorem booking_grid_states (F : FontRegistry) (r c : Nat)
    (hr : r < 3) (hc : c < 8) :
    booking_cell_ok F r c ∧ GREEN ≠ BLUE ∧ GREEN ≠ RED ∧ BLUE ≠ RED := by
  refine ⟨?_, by decide, by decide, by decide⟩
  unfold booking_cell_ok
  simp only [cell_outline_booking]
  interval_cases r <;> interval_cases c <;> decide

/-- Concrete instance of `booking_grid_states` at the selected cell
(row 0, column 7, linear index 7). -/
theorem booking_grid_states_witness :
    (0 < 3 ∧ 7 < 8) ∧ booking_cell_ok fallback_fonts 0 7 ∧
      GREEN ≠ BLUE ∧ GREEN ≠ RED ∧ BLUE ≠ RED :=
  ⟨⟨by decide, by decide⟩,
   booking_grid_states fallback_fonts 0 7 (by decide) (by decide)⟩

/-- Claim C5: the welcome composer draws exactly 10 language cards; card
`i` sits in column `i % 5` and row `i / 5` of a 5-column, 2-row grid at
horizontal pitch `cw + gap` and vertical pitch `ch + gap`; and the
grid's horizontal origin is `(canvas_width - 5 * card_width - 4 * gap) / 2`
for the literals card width 130, gap 12 and canvas width 800. -/
theorem welcome_card_grid (F : FontRegistry) :
    (welcome_card_origins (create_welcome F)).length = 10 ∧
    welcome_card_origins (create_welcome F) =
      (List.range 10).map (fun i =>
        (welcome_sx + (i % 5) * (welcome_cw + 12), 160 + (i / 5) * (welcome_ch + 12))) ∧
    welcome_sx = (800 - 5 * 130 - 4 * 12) / 2 :=
  ⟨rfl, rfl, rfl⟩

/-- Claim C6: if resolution of the preferred truetype fonts fails (any
of the six lookups raises), the registry does not abort — `resolve_fonts`
is total by construction — and every font role falls back to the single
default font. -/
theorem font_fallback_total (tt : String → Nat → Option FontHandle)
    (h : preferred_resolved tt = false) (role : FontRole) :
    font_for (resolve_fonts tt) role = defaultFont := by
  unfold resolve_fonts
  cases h1 : tt dejavuBoldPath 28 <;>
  cases h2 : tt dejavuPath 18 <;>
  cases h3 : tt dejavuPath 14 <;>
  cases h4 : tt dejavuPath 11 <;>
  cases h5 : tt dejavuBoldPath 18 <;>
  cases h6 : tt dejavuBoldPath 22 <;>
  first
    | (cases role <;> rfl)
    | (exfalso
       simp [preferred_resolved, h1, h2, h3, h4, h5, h6] at h)

/-- Concrete instance of `font_fallback_total`: with a resolver on which
every truetype lookup fails, the large-title role yields the default font. -/
theorem font_fallback_total_witness :
    preferred_resolved (fun _ _ => none) = false ∧
    font_for (resolve_fonts (fun _ _ => none)) FontRole.lg = defaultFont :=
  ⟨rfl, font_fallback_total (fun _ _ => none) rfl FontRole.lg⟩

/-- Claim C7: the full generation is deterministic — two runs over the
same font environment agree on every screen's command stream (and hence
on every pixel), whatever the ambient clock or randomness of each run,
because no composer reads either. -/
theorem generation_deterministic (tt : String → Nat → Option FontHandle)
    (clock1 clock2 : Nat) (rng1 rng2 : Nat → Nat) :
    generate_all tt clock1 rng1 = generate_all tt clock2 rng2 :=
  rfl

/-- Claim C8: in the themes composer, every one of the 10 theme cards
fills its preview swatch with the theme's accent color integer-divided
by 4 per channel, and only the first card is flagged active — it alone
gets the accent `BLUE` card outline and the single "Aktiv" label, drawn
at the first card's position. -/
theorem theme_cards_swatch_and_active (F : FontRegistry) :
    theme_swatch_fills (create_themes F) =
      themes.map (fun t => (⟨t.2.r / 4, t.2.g / 4, t.2.b / 4, none⟩ : Color)) ∧
    (theme_swatch_fills (create_themes F)).length = 10 ∧
    theme_card_outlines (create_themes F) = BLUE :: List.replicate 9 CARD_BORDER ∧
    aktiv_text_positions (create_themes F) = [(60 + 10, 145 + 125)] :=
  ⟨rfl, rfl, rfl, rfl⟩

/-- Claim C9: the admin users table has 5 literal rows; a separator line
is drawn after row `i` exactly for the four indices `i < 4`, i.e. after
every row except the last; each row's role text color is the fixed
3-color mapping applied to its role (so always one of `PURPLE`, `BLUE`,
`GRAY`) and each row's status text color is the fixed 2-color mapping
applied to its status (so always one of `GREEN`, `RED`). -/
theorem admin_table_rows (F : FontRegistry) :
    admin_users.length = 5 ∧
    admin_row_separator_ys (create_admin F) =
      (List.range (admin_users.length - 1)).map (fun i => 225 + i * 38 + 30) ∧
    admin_role_text_colors (create_admin F) =
      admin_users.map (fun u => admin_role_color u.role) ∧
    (admin_role_text_colors (create_admin F)).all
      (fun col => [PURPLE, BLUE, GRAY].contains col) = true ∧
    admin_status_text_colors (create_admin F) =
      admin_users.map (fun u => admin_status_color u.status) ∧
    (admin_status_text_colors (create_admin F)).all
      (fun col => [GREEN, RED].contains col) = true :=
  ⟨rfl, rfl, rfl, rfl, rfl, rfl⟩

/-- The sidebar's six fixed entry labels. -/
def sidebar_labels : List String := sidebar_items.map (fun p => p.1)

/-- Claim C10: whenever the active item matches no fixed label — in
particular when it is `none` — `draw_navbar` renders all four
navigation labels in the muted `GRAY` color, and `draw_sidebar` renders
all six entries as plain `GRAY` text and draws no accent highlight
rectangle (its only rounded rectangle is the panel background). -/
theorem widgets_inactive_render_muted (F : FontRegistry) (title : String)
    (active : Option String)
    (hn : ∀ l ∈ navbar_items, active ≠ some l)
    (hs : ∀ l ∈ sidebar_labels, active ≠ some l) :
    navbar_item_colors (draw_navbar F title active) = List.replicate 4 GRAY ∧
    sidebar_entry_colors (draw_sidebar F active) = List.replicate 6 GRAY ∧
    count_rrects (draw_sidebar F active) = 1 := by
  have d1 : ¬active = some "Dashboard" := hn _ (by simp [navbar_items])
  have d2 : ¬active = some "Buchungen" := hn _ (by simp [navbar_items])
  have d3 : ¬active = some "Profil" := hn _ (by simp [navbar_items])
  have d4 : ¬active = some "Admin" := hn _ (by simp [navbar_items])
  have d5 : ¬active = some "Fahrzeuge" := hs _ (by simp [sidebar_labels, sidebar_items])
  have d6 : ¬active = some "Homeoffice" := hs _ (by simp [sidebar_labels, sidebar_items])
  refine ⟨?_, ?_, ?_⟩ <;>
    simp [draw_navbar, draw_sidebar, navbar_item_colors, sidebar_entry_colors,
          count_rrects, navbar_items, sidebar_items, rounded_rect, List.enum,
          d1, d2, d3, d4, d5, d6]

/-- Concrete instance of `widgets_inactive_render_muted` at
`active = none`. -/
theorem widgets_inactive_render_muted_witness :
    (∀ l ∈ navbar_items, (none : Option String) ≠ some l) ∧
    (∀ l ∈ sidebar_labels, (none : Option String) ≠ some l) ∧
    navbar_item_colors (draw_navbar fallback_fonts "ParkHub" none) =
      List.replicate 4 GRAY ∧
    sidebar_entry_colors (draw_sidebar fallback_fonts none) =
      List.replicate 6 GRAY ∧
    count_rrects (draw_sidebar fallback_fonts none) = 1 :=
  ⟨by simp, by simp,
   (widgets_inactive_render_muted fallback_fonts "ParkHub" none
      (by simp) (by simp)).1,
   (widgets_inactive_render_muted fallback_fonts "ParkHub" none
      (by simp) (by simp)).2.1,
   (widgets_inactive_render_muted fallback_fonts "ParkHub" none
      (by simp) (by simp)).2.2⟩

end ParkHub
